import Mathlib

/-!
Verification of the email-routing script (src/script/email-router.py) and the
agent-runtime demo (src/agentcore-demo/agent.py) against their specification.

Python strings are modeled as lists of characters (`Str`).  Python `None` and
JSON values are modeled by the inductive type `PyValue`; Python dicts whose keys
are strings are association lists.  Exceptions (KeyError, JSON decode errors,
network errors raised by the HTTP library) are modeled with `Except`.  Raw email
text is modeled with Unix newlines; CPython's universal-newline handling of
lone CR characters is outside the modeled input class.  Python floats are
modeled as rationals; at every input appearing in a claim the IEEE-754 double
computation performed by the source is exact, so the rational model coincides
with it.
-/

/-- Python strings, modeled as lists of characters. -/
abbrev Str := List Char

/-- Python `None`, booleans, numbers, strings, lists and (string-keyed) dicts:
the values that can appear in a decoded JSON response or a routing-decision
dict. -/
inductive PyValue where
  | pyNone : PyValue
  | pyBool : Bool → PyValue
  | pyNum : ℚ → PyValue
  | pyStr : Str → PyValue
  | pyList : List PyValue → PyValue
  | pyDict : List (Str × PyValue) → PyValue

/-- A Python dict with string keys, as produced by `response.json()` for a JSON
object, modeled as an association list (first binding wins on lookup; real
dicts have unique keys). -/
abbrev Dict := List (Str × PyValue)

/-- Python `d.get(k)`: `None`-free lookup returning an optional value. -/
def dictGet (d : Dict) (k : Str) : Option PyValue :=
  (d.find? (fun p => p.1 == k)).map Prod.snd

/-- Errors a pipeline stage can raise: `KeyError` from `d[k]` on a missing key,
a JSON decoding error from `response.json()`, and a network-level exception
raised by the HTTP library inside `requests.post`. -/
inductive PyError where
  | keyError : Str → PyError
  | jsonDecodeError : PyError
  | requestsError : PyError

/-- Python `d[k]`: raises `KeyError k` when the key is absent. -/
def dictGetItem (d : Dict) (k : Str) : Except PyError PyValue :=
  match dictGet d k with
  | some v => Except.ok v
  | none => Except.error (PyError.keyError k)

/-- Coercion used by `d.get(k)` result positions where Python would hold the
value `None` for an absent key. -/
def optToPy : Option PyValue → PyValue
  | none => PyValue.pyNone
  | some v => v

/- ----------------------------------------------------------------------
src/agentcore-demo/agent.py
---------------------------------------------------------------------- -/

/-- Decimal digit characters of a natural number, via `Nat.repr`. -/
def natDigits (n : ℕ) : Str := (Nat.repr n).data

/-- Two-digit zero-padded decimal rendering of `n < 100`. -/
def pad2 (n : ℕ) : Str := if n < 10 then '0' :: natDigits n else natDigits n

/-- Round `n / d` (with `d > 0`) to the nearest integer, ties to even: the
rounding CPython's fixed-point float formatting performs on the exact value. -/
def roundHalfEvenDiv (n : ℤ) (d : ℤ) : ℤ :=
  let q := Int.fdiv n d
  let r := n - q * d
  if 2 * r < d then q
  else if 2 * r > d then q + 1
  else if q % 2 = 0 then q else q + 1

/-- Python `f-string` formatting with the `:.2f` spec, on the rational model of
the float being formatted: round the exact value to two decimal places (ties to
even) and print with exactly two fractional digits. -/
def pyFormat2f (q : ℚ) : Str :=
  let c := roundHalfEvenDiv (q.num * 100) (q.den : ℤ)
  if c < 0 then '-' :: (natDigits ((-c).toNat / 100) ++ '.' :: pad2 ((-c).toNat % 100))
  else natDigits (c.toNat / 100) ++ '.' :: pad2 (c.toNat % 100)

/-- Fractional decimal digits of `r / d` by long division, fuel-bounded;
terminates early when the remainder reaches zero (finite decimal expansion). -/
def fracDigits : ℕ → ℕ → ℕ → Str
  | 0, _, _ => []
  | _ + 1, 0, _ => []
  | fuel + 1, r, d => Nat.digitChar (r * 10 / d) :: fracDigits fuel (r * 10 % d) d

/-- Python `str()` of a non-negative float `num / den` in the rational model:
integers print with a trailing `.0` (`str(20.0) = "20.0"`), other finite
decimal expansions print their digits. -/
def pyStrFloatNN (num : ℕ) (den : ℕ) : Str :=
  if den ≤ 1 then natDigits num ++ ".0".data
  else natDigits (num / den) ++ '.' :: fracDigits 30 (num % den) den

/-- Python `str()` of a float, on the rational model. -/
def pyStrFloat (q : ℚ) : Str :=
  if q.num < 0 then '-' :: pyStrFloatNN q.num.natAbs q.den
  else pyStrFloatNN q.num.natAbs q.den

/-- Tool `get_weather` of src/agentcore-demo/agent.py: mock weather report. -/
def get_weather (location : Str) : Str :=
  "The weather in ".data ++ location ++ " is sunny and 72°F".data

/-- Tool `calculate_tip` of src/agentcore-demo/agent.py.  `tip_percentage`
defaults to `15.0` in the source.  The f-string renders the bill, tip and total
with `:.2f` and the percentage with plain `str()`. -/
def calculate_tip (bill_amount : ℚ) (tip_percentage : ℚ := 15) : Str :=
  let tip := bill_amount * (tip_percentage / 100)
  let total := bill_amount + tip
  "Bill: $".data ++ pyFormat2f bill_amount ++
    ", Tip (".data ++ pyStrFloat tip_percentage ++
    "%): $".data ++ pyFormat2f tip ++
    ", Total: $".data ++ pyFormat2f total

/-- Entrypoint `invoke` of src/agentcore-demo/agent.py.  The hosted agent
(`Agent(...).invoke_async`) is an external collaborator, modeled as the oracle
`agent_reply` mapping the forwarded user message to `str(response.message)`.
The entrypoint reads `payload.get("prompt", "Hello!")` and returns the dict
`{"response": str(response.message)}`. -/
def invoke (payload : Dict) (agent_reply : PyValue → Str) : Dict :=
  let user_message := (dictGet payload ("prompt".data)).getD (PyValue.pyStr ("Hello!".data))
  [(("response".data), PyValue.pyStr (agent_reply user_message))]

/- ----------------------------------------------------------------------
src/script/email-router.py — parse_email

`parse_email` calls `email.message_from_string` and reads `msg['From']`,
`msg['To']`, `msg['Subject']` and `msg.get_payload()`.  The definitions below
embed the behavior of CPython's `email.feedparser` with the default `compat32`
policy on newline-separated text: a maximal prefix of lines matching the
feed parser's header pattern (`From `-envelope lines, `name:`-lines whose name
characters lie in `\041`-`\176` minus the colon, and continuation lines
starting with space or tab) forms the header block, ended by a blank line
(consumed) or by a non-matching line (kept: it starts the body).  Header
values are the text after the first colon with leading spaces and tabs
stripped; continuation lines are appended verbatim after a newline.  A line
starting with `From ` is an envelope line: dropped when it is the first or an
interior line of the block, pushed back onto the body when it is the last.
Lines with an empty header name and continuation lines with no open header
are dropped.  Header lookup is case-insensitive, first occurrence wins, and an
absent header gives Python `None` (here `Option.none`).  Multipart payload
decoding is not modeled (no claim concerns it): the body is the remaining
text verbatim.
---------------------------------------------------------------------- -/

/-- Characters allowed in a header field name by the feed parser's pattern:
octets `\041`-`\176` except the colon. -/
def isHeaderNameChar (c : Char) : Bool :=
  '\x21' ≤ c && c ≤ '\x7e' && c != ':'

/-- Space or tab: the characters `compat32.header_source_parse` strips from the
front of a header value, and the characters opening a continuation line. -/
def isSpaceTab (c : Char) : Bool := c == ' ' || c == '\t'

/-- Strip leading spaces and tabs, as `value.lstrip(' \t')` does. -/
def lstripST (s : Str) : Str := s.dropWhile isSpaceTab

/-- Case-insensitive normalization used by header lookup (`name.lower()`;
header names in the valid range are ASCII). -/
def lowerStr (s : Str) : Str := s.map Char.toLower

/-- Does the line begin a continuation (first character space or tab)? -/
def isContinuationLine (line : Str) : Bool :=
  match line with
  | c :: _ => isSpaceTab c
  | [] => false

/-- Split a line at the first colon provided every character before it is a
header-name character, giving the name and the leading-whitespace-stripped
value.  Mirrors `line.find(':')` under the feed parser's guarantee that such a
line matched `[\041-\071\073-\176]*:`. -/
def splitColonHeader (line : Str) : Option (Str × Str) :=
  match line.dropWhile isHeaderNameChar with
  | ':' :: value => some (line.takeWhile isHeaderNameChar, lstripST value)
  | _ => none

/-- Does the line match the feed parser's header pattern
`^(From |[\041-\071\073-\176]*:|[\t ])`? -/
def headerBlockLine (line : Str) : Bool :=
  List.isPrefixOf ("From ".data) line ||
    (splitColonHeader line).isSome ||
    isContinuationLine line

/-- Collect the header block: the maximal prefix of lines matching the header
pattern.  A blank line ends the block and is consumed; any other non-matching
line ends the block and is pushed back as the first body line.  Returns the
header-block lines and the body lines. -/
def collectHeaderLines : List Str → List Str × List Str
  | [] => ([], [])
  | line :: rest =>
    if line = [] then ([], rest)
    else if headerBlockLine line then
      let (hs, b) := collectHeaderLines rest
      (line :: hs, b)
    else ([], line :: rest)

/-- Append the pending header, if any, to the accumulated header list (the
feed parser's flush of `lastheader`/`lastvalue`). -/
def flushHeader (cur : Option (Str × Str)) (acc : List (Str × Str)) :
    List (Str × Str) :=
  match cur with
  | some nv => acc ++ [nv]
  | none => acc

/-- Interpret the collected header-block lines, mirroring
`FeedParser._parse_headers`: `i` is the current line number, `n` the total
number of block lines, `cur` the open header being folded, `acc` the finished
headers.  Returns the header list and, when the last block line was an
interior-looking envelope line pushed back into the input, that line. -/
def parseHeaderLinesAux :
    List Str → ℕ → ℕ → Option (Str × Str) → List (Str × Str) →
    List (Str × Str) × Option Str
  | [], _, _, cur, acc => (flushHeader cur acc, none)
  | line :: rest, i, n, cur, acc =>
    if isContinuationLine line then
      match cur with
      | none => parseHeaderLinesAux rest (i + 1) n none acc
      | some nv =>
        parseHeaderLinesAux rest (i + 1) n (some (nv.1, nv.2 ++ '\n' :: line)) acc
    else
      let acc' := flushHeader cur acc
      if List.isPrefixOf ("From ".data) line then
        if i = 0 then parseHeaderLinesAux rest (i + 1) n none acc'
        else if i = n - 1 then (acc', some line)
        else parseHeaderLinesAux rest (i + 1) n none acc'
      else
        match splitColonHeader line with
        | some nv =>
          if nv.1 = [] then parseHeaderLinesAux rest (i + 1) n none acc'
          else parseHeaderLinesAux rest (i + 1) n (some nv) acc'
        | none => parseHeaderLinesAux rest (i + 1) n none acc'

/-- Interpret a header block (entry point of `parseHeaderLinesAux`). -/
def parseHeaderLines (lines : List Str) : List (Str × Str) × Option Str :=
  parseHeaderLinesAux lines 0 lines.length none []

/-- Header lookup `msg[name]`: case-insensitive, first match, `None` when
absent. -/
def headerGet (hs : List (Str × Str)) (name : Str) : Option Str :=
  (hs.find? (fun p => lowerStr p.1 == lowerStr name)).map Prod.snd

/-- The structured record `parse_email` returns: a dict with keys `'from'`,
`'to'`, `'subject'`, `'body'`, `'timestamp'`.  Header fields hold Python
`None` (`Option.none`) when the header is absent. -/
structure EmailRecord where
  sender : Option Str
  recipient : Option Str
  subject : Option Str
  body : Str
  timestamp : Str

/-- Function `parse_email` of src/script/email-router.py.  The call
`datetime.now().isoformat()` is nondeterministic and passed in as `now`. -/
def parse_email (raw_email : Str) (now : Str) : EmailRecord :=
  let (hlines, blines) := collectHeaderLines (raw_email.splitOn '\n')
  let (hs, pushback) := parseHeaderLines hlines
  let bodyLines :=
    match pushback with
    | some l => l :: blines
    | none => blines
  { sender := headerGet hs ("From".data)
    recipient := headerGet hs ("To".data)
    subject := headerGet hs ("Subject".data)
    body := List.intercalate ['\n'] bodyLines
    timestamp := now }

/- ----------------------------------------------------------------------
src/script/email-router.py — classify_email, store_routing_decision,
execute_action
---------------------------------------------------------------------- -/

/-- Render an optional header value the way an f-string does: Python `None`
prints as `None`, a string prints verbatim. -/
def showOptStr : Option Str → Str
  | none => "None".data
  | some s => s

/-- The prompt `classify_email` builds from the parsed email before posting it
to the classification endpoint. -/
def build_prompt (e : EmailRecord) : Str :=
  "From: ".data ++ showOptStr e.sender ++
    "\nSubject: ".data ++ showOptStr e.subject ++
    "\nBody: ".data ++ e.body ++
    "\n\nClassify and route this email.".data

/-- An HTTP response as seen through the `requests` API: the status code and
the result of decoding the body as JSON (`none` when the body is not valid
JSON, in which case `response.json()` raises). -/
structure HttpResponse where
  status_code : ℕ
  jsonBody : Option PyValue

/-- Python `response.json()`: the decoded body, or a JSON decode error. -/
def respJson (r : HttpResponse) : Except PyError PyValue :=
  match r.jsonBody with
  | some v => Except.ok v
  | none => Except.error PyError.jsonDecodeError

/-- Function `classify_email` of src/script/email-router.py.  The network is
the external collaborator `http_post`, mapping the posted prompt text to
either a transport-level failure (an exception raised inside `requests.post`)
or an `HttpResponse`.  The source checks neither `status_code` nor anything
else about the response: it returns `response.json()` unconditionally. -/
def classify_email (email_data : EmailRecord)
    (http_post : Str → Except Unit HttpResponse) : Except PyError PyValue :=
  match http_post (build_prompt email_data) with
  | Except.error _ => Except.error PyError.requestsError
  | Except.ok resp => respJson resp

/-- Function `store_routing_decision` of src/script/email-router.py.  The body
is a single print of `f"[LEDGER] {email_data['from']} -> {routing['target']}"`;
the printed payload is modeled as the pair of the two interpolated values.
`email_data['from']` always succeeds on a record built by `parse_email`;
`routing['target']` is an unguarded subscript raising `KeyError` when the
key is absent. -/
def store_routing_decision (email_data : EmailRecord) (routing : Dict) :
    Except PyError (Option Str × PyValue) :=
  match dictGetItem routing ("target".data) with
  | Except.ok t => Except.ok (email_data.sender, t)
  | Except.error e => Except.error e

/-- Which of `execute_action`'s print branches fires: the Gemini-Knight branch
carries the interpolated `action` value; the final `noBranch` means no branch
matched and nothing was printed. -/
inductive Branch where
  | geminiKnight : PyValue → Branch
  | userNotify : Branch
  | lumoArchitect : Branch
  | noBranch : Branch

/-- Python `x == 'lit'` where `x` came from `d.get(k)`: true exactly when the
value is that string (`None` and non-strings compare unequal). -/
def isStrEq (v : Option PyValue) (t : Str) : Bool :=
  match v with
  | some (PyValue.pyStr s) => s == t
  | _ => false

/-- Function `execute_action` of src/script/email-router.py: guarded lookups of
`target` and `action`, a three-way if/elif chain on `target` selecting a print
branch (no else arm), and the unconditional result
`{'status': 'executed', 'target': target}`. -/
def execute_action (routing : Dict) (email_data : EmailRecord) : Branch × Dict :=
  let target := dictGet routing ("target".data)
  let action := dictGet routing ("action".data)
  let branch :=
    if isStrEq target ("gemini_knight".data) then Branch.geminiKnight (optToPy action)
    else if isStrEq target ("user".data) then Branch.userNotify
    else if isStrEq target ("lumo_architect".data) then Branch.lumoArchitect
    else Branch.noBranch
  (branch, [(("status".data), PyValue.pyStr ("executed".data)),
            (("target".data), optToPy target)])

/- ----------------------------------------------------------------------
Rendering of structured emails back to raw text, used to state the parser
claims over a well-formed input class, and concrete sample inputs.
---------------------------------------------------------------------- -/

/-- Render one header as the line `Name: value`. -/
def renderHeaderLine (p : Str × Str) : Str := p.1 ++ ':' :: ' ' :: p.2

/-- Render a header list and body lines as raw RFC-822-style text: header
lines, a blank separator line, then the body lines, all newline-separated. -/
def renderEmail (hs : List (Str × Str)) (body : List Str) : Str :=
  List.intercalate ['\n'] (hs.map renderHeaderLine ++ [[]] ++ body)

/-- What the feed parser stores for a single rendered header: the name and the
leading-whitespace-stripped value. -/
def stripHdr (p : Str × Str) : Str × Str := (p.1, lstripST p.2)

/-- A structurally well-formed header: non-empty name of header-name
characters, and a value free of line breaks. -/
abbrev ValidHeader (p : Str × Str) : Prop :=
  p.1 ≠ [] ∧ (∀ c ∈ p.1, isHeaderNameChar c = true) ∧ '\n' ∉ p.2 ∧ '\r' ∉ p.2

/-- All headers of the list are structurally well-formed. -/
abbrev ValidHeaders (hs : List (Str × Str)) : Prop := ∀ p ∈ hs, ValidHeader p

/-- Body lines contain no newline characters (they are genuine lines). -/
abbrev ValidBody (body : List Str) : Prop := ∀ l ∈ body, '\n' ∉ l

/-- A concrete parsed email record used to instantiate theorems. -/
def sampleRecord : EmailRecord :=
  { sender := some ("alice@example.com".data)
    recipient := some ("bob@example.com".data)
    subject := some ("Status update".data)
    body := "All systems nominal.".data
    timestamp := "2025-01-01T00:00:00".data }

/-- A concrete routing decision targeting `gemini_knight`. -/
def gemRouting : Dict :=
  [(("target".data), PyValue.pyStr ("gemini_knight".data)),
   (("action".data), PyValue.pyStr ("heal".data))]

/-- A concrete JSON error body as returned by the classification endpoint on a
rejected request. -/
def errorBody : PyValue :=
  PyValue.pyDict [(("error".data), PyValue.pyStr ("API key not valid".data))]

/-- A network collaborator that answers every POST with HTTP 403 and a JSON
error body. -/
def post403 : Str → Except Unit HttpResponse :=
  fun _ => Except.ok { status_code := 403, jsonBody := some errorBody }

/-- A concrete hosted-agent oracle used to instantiate theorems. -/
def sampleReply : PyValue → Str := fun _ => "echo".data

/-- Concrete well-formed headers used to instantiate the parser theorems. -/
def sampleHeaders : List (Str × Str) :=
  [(("From".data), ("alice@example.com".data)),
   (("Subject".data), ("Status update".data))]

/-- Concrete headers with no From, To or Subject entry. -/
def otherHeaders : List (Str × Str) :=
  [(("X-Priority".data), ("1".data))]

/-- Concrete body lines used to instantiate the parser theorems. -/
def sampleBody : List Str := [("hello".data)]

/- ----------------------------------------------------------------------
Theorems
---------------------------------------------------------------------- -/

/-- Claim C8: `get_weather` applied to the location string `Paris` returns a
string containing the substrings `Paris` and `sunny`. -/
theorem get_weather_paris :
    ("Paris".data <:+: get_weather ("Paris".data)) ∧
    ("sunny".data <:+: get_weather ("Paris".data)) := by
  constructor <;> decide

/-- Claim C7: `calculate_tip` at bill 100.0 and percentage 20.0 returns a
string containing `Tip (20.0%): $20.00` and `Total: $120.00`.  At these
inputs the double-precision computation in the source (`100.0 * (20.0 / 100)`
and `100.0 + 20.0`) is exact, so the rational model coincides with it. -/
theorem calculate_tip_example :
    ("Tip (20.0%): $20.00".data <:+: calculate_tip 100 20) ∧
    ("Total: $120.00".data <:+: calculate_tip 100 20) := by
  have h : calculate_tip 100 20 =
      "Bill: $100.00, Tip (20.0%): $20.00, Total: $120.00".data := by
    simp only [calculate_tip]
    rw [show (100 : ℚ) * (20 / 100) = 20 by norm_num]
    rw [show (100 : ℚ) + 20 = 120 by norm_num]
    decide
  rw [h]
  constructor <;> decide

/-- Claim C1: for every routing-decision dict, `execute_action` returns a
result with status `executed` and the `target` field equal to the decision's
target value unchanged (`None` when the key is absent); no branch reports
failure.  The closed conjunct instantiates the unrecognized target
`unknown_target`. -/
theorem execute_action_always_executes :
    (∀ (routing : Dict) (e : EmailRecord),
        dictGet (execute_action routing e).2 ("status".data) =
          some (PyValue.pyStr ("executed".data)) ∧
        dictGet (execute_action routing e).2 ("target".data) =
          some (optToPy (dictGet routing ("target".data)))) ∧
    dictGet (execute_action
        [(("target".data), PyValue.pyStr ("unknown_target".data))]
        sampleRecord).2 ("target".data) =
      some (PyValue.pyStr ("unknown_target".data)) :=
  ⟨fun _ _ => ⟨rfl, rfl⟩, rfl⟩

/-- Claim C5: when the decision's `target` is `gemini_knight`, `execute_action`
selects the Gemini-Knight branch (printing the action) and the result's
`target` field equals `gemini_knight`. -/
theorem execute_action_gemini_branch (routing : Dict) (e : EmailRecord)
    (h : dictGet routing ("target".data) = some (PyValue.pyStr ("gemini_knight".data))) :
    (execute_action routing e).1 =
      Branch.geminiKnight (optToPy (dictGet routing ("action".data))) ∧
    dictGet (execute_action routing e).2 ("target".data) =
      some (PyValue.pyStr ("gemini_knight".data)) := by
  unfold execute_action
  rw [h]
  exact ⟨rfl, rfl⟩

/-- Claim C5, witness: the theorem applied to a concrete decision targeting
`gemini_knight` with action `heal`. -/
theorem execute_action_gemini_branch_witness :
    (execute_action gemRouting sampleRecord).1 =
      Branch.geminiKnight (PyValue.pyStr ("heal".data)) ∧
    dictGet (execute_action gemRouting sampleRecord).2 ("target".data) =
      some (PyValue.pyStr ("gemini_knight".data)) :=
  execute_action_gemini_branch gemRouting sampleRecord rfl

/-- Claim C2, counterexample: the claim states that a non-2xx response
propagates a service-call error.  It does not: the source never inspects
`status_code` (`requests` does not raise on HTTP error status, and
`raise_for_status` is never called), so on a 403 response with a JSON body
`classify_email` returns the decoded body instead of an error. -/
theorem classify_email_403_returns_decoded :
    classify_email sampleRecord post403 = Except.ok errorBody := rfl

/-- Claim C2, amended: when the HTTP POST completes with a response of any
status whose body is valid JSON, `classify_email` returns the decoded body;
the status code is never consulted, so non-2xx responses do not raise.  Only a
transport-level exception inside `requests.post` (or an invalid-JSON body)
propagates to the caller. -/
theorem classify_email_ignores_status (e : EmailRecord)
    (post : Str → Except Unit HttpResponse) (st : ℕ) (j : PyValue)
    (h : post (build_prompt e) = Except.ok { status_code := st, jsonBody := some j }) :
    classify_email e post = Except.ok j := by
  unfold classify_email
  rw [h]
  rfl

/-- Claim C2, witness: the amended theorem applied to the concrete 403
response. -/
theorem classify_email_ignores_status_witness :
    classify_email sampleRecord post403 = Except.ok errorBody :=
  classify_email_ignores_status sampleRecord post403 403 errorBody rfl

/-- Claim C9: on a routing decision lacking the `target` key, the ledger stub
`store_routing_decision` raises `KeyError` through its unguarded
`routing['target']` subscript, while `execute_action` on the very same
decision succeeds through its guarded `routing.get('target')`, reporting
status `executed` with target `None`. -/
theorem store_raises_where_dispatch_succeeds (e : EmailRecord) (routing : Dict)
    (h : dictGet routing ("target".data) = none) :
    store_routing_decision e routing =
      Except.error (PyError.keyError ("target".data)) ∧
    dictGet (execute_action routing e).2 ("status".data) =
      some (PyValue.pyStr ("executed".data)) ∧
    dictGet (execute_action routing e).2 ("target".data) = some PyValue.pyNone := by
  refine ⟨?_, rfl, ?_⟩
  · unfold store_routing_decision dictGetItem
    rw [h]
  · unfold execute_action
    rw [h]
    rfl

/-- Claim C9, witness: the theorem applied to the empty decision dict. -/
theorem store_raises_where_dispatch_succeeds_witness :
    store_routing_decision sampleRecord [] =
      Except.error (PyError.keyError ("target".data)) ∧
    dictGet (execute_action [] sampleRecord).2 ("status".data) =
      some (PyValue.pyStr ("executed".data)) ∧
    dictGet (execute_action [] sampleRecord).2 ("target".data) =
      some PyValue.pyNone :=
  store_raises_where_dispatch_succeeds sampleRecord [] rfl

/-- Claim C10: when the payload lacks the `prompt` key, `invoke` does not
fail: the user message forwarded to the hosted agent defaults to `Hello!` and
the entrypoint returns `{"response": str(response.message)}` for that
message. -/
theorem invoke_defaults_missing_prompt (payload : Dict)
    (agent_reply : PyValue → Str)
    (h : dictGet payload ("prompt".data) = none) :
    invoke payload agent_reply =
      [(("response".data),
        PyValue.pyStr (agent_reply (PyValue.pyStr ("Hello!".data))))] := by
  unfold invoke
  rw [h]
  rfl

/-- Claim C10, witness: the theorem applied to the empty payload and a
concrete oracle. -/
theorem invoke_defaults_missing_prompt_witness :
    invoke [] sampleReply =
      [(("response".data),
        PyValue.pyStr (sampleReply (PyValue.pyStr ("Hello!".data))))] :=
  invoke_defaults_missing_prompt [] sampleReply rfl

/-- Claim C4: for every parsed email record whose sender and subject fields
are strings, the prompt `classify_email` builds and posts contains the
sender, subject and body strings verbatim as substrings (the body field is
always a string). -/
theorem build_prompt_contains_fields (e : EmailRecord) (s subj : Str)
    (hs : e.sender = some s) (hsub : e.subject = some subj) :
    (s <:+: build_prompt e) ∧ (subj <:+: build_prompt e) ∧
    (e.body <:+: build_prompt e) := by
  unfold build_prompt
  rw [hs, hsub]
  simp only [showOptStr]
  refine ⟨⟨"From: ".data,
      "\nSubject: ".data ++ subj ++ "\nBody: ".data ++ e.body ++
        "\n\nClassify and route this email.".data, by simp [List.append_assoc]⟩,
    ⟨"From: ".data ++ s ++ "\nSubject: ".data,
      "\nBody: ".data ++ e.body ++ "\n\nClassify and route this email.".data,
      by simp [List.append_assoc]⟩,
    ⟨"From: ".data ++ s ++ "\nSubject: ".data ++ subj ++ "\nBody: ".data,
      "\n\nClassify and route this email.".data, by simp [List.append_assoc]⟩⟩

/-- Header-name characters are printable and therefore neither space nor
tab. -/
theorem nameChar_not_spaceTab (c : Char) (h : isHeaderNameChar c = true) :
    isSpaceTab c = false := by
  have h1 : '\x21' ≤ c := by
    unfold isHeaderNameChar at h
    simp only [Bool.and_eq_true, decide_eq_true_eq] at h
    exact h.1.1
  unfold isSpaceTab
  simp only [Bool.or_eq_false_iff, beq_eq_false_iff_ne, ne_eq]
  constructor <;> rintro rfl <;> exact absurd h1 (by decide)

/-- Dropping header-name characters from a rendered header line stops exactly
at the colon. -/
theorem dropWhile_nameChars (n rest : Str)
    (hn : ∀ c ∈ n, isHeaderNameChar c = true) :
    List.dropWhile isHeaderNameChar (n ++ ':' :: rest) = ':' :: rest := by
  induction n with
  | nil =>
    have hc : isHeaderNameChar ':' = false := by decide
    simp [List.dropWhile, hc]
  | cons a t ih =>
    have ha := hn a (by simp)
    simp [List.dropWhile, ha, ih (fun c hc => hn c (by simp [hc]))]

/-- Taking header-name characters from a rendered header line recovers the
name. -/
theorem takeWhile_nameChars (n rest : Str)
    (hn : ∀ c ∈ n, isHeaderNameChar c = true) :
    List.takeWhile isHeaderNameChar (n ++ ':' :: rest) = n := by
  induction n with
  | nil =>
    have hc : isHeaderNameChar ':' = false := by decide
    simp [List.takeWhile, hc]
  | cons a t ih =>
    have ha := hn a (by simp)
    simp [List.takeWhile, ha, ih (fun c hc => hn c (by simp [hc]))]

/-- Splitting a rendered well-formed header line at its colon recovers the
name and the leading-whitespace-stripped value. -/
theorem splitColonHeader_render (p : Str × Str) (hp : ValidHeader p) :
    splitColonHeader (renderHeaderLine p) = some (p.1, lstripST p.2) := by
  unfold splitColonHeader renderHeaderLine
  rw [dropWhile_nameChars p.1 (' ' :: p.2) hp.2.1,
    takeWhile_nameChars p.1 (' ' :: p.2) hp.2.1]
  have hsp : isSpaceTab ' ' = true := by decide
  simp [lstripST, List.dropWhile, hsp]

/-- A rendered well-formed header line is not a continuation line. -/
theorem render_not_continuation (p : Str × Str) (hp : ValidHeader p) :
    isContinuationLine (renderHeaderLine p) = false := by
  obtain ⟨hne, hchars, -, -⟩ := hp
  unfold renderHeaderLine isContinuationLine
  match hn : p.1 with
  | [] => exact absurd hn hne
  | a :: t =>
    simp only [List.cons_append]
    exact nameChar_not_spaceTab a (hchars a (by rw [hn]; simp))

/-- A rendered well-formed header line does not start with the unix-from
envelope marker `From ` (names contain no space, and the colon right after
the name cannot sit inside `From `). -/
theorem render_not_fromSpace (p : Str × Str) (hp : ValidHeader p) :
    List.isPrefixOf ("From ".data) (renderHeaderLine p) = false := by
  obtain ⟨hne, hchars, -, -⟩ := hp
  rw [Bool.eq_false_iff]
  intro hpre
  rw [ List.isPrefixOf_iff_prefix] at hpre
  unfold renderHeaderLine at hpre
  rcases List.prefix_or_prefix_of_prefix hpre
      (List.prefix_append p.1 (':' :: ' ' :: p.2)) with h | h
  · have hsp : ' ' ∈ p.1 := h.subset (by decide)
    exact absurd (hchars ' ' hsp) (by decide)
  · obtain ⟨r, hr⟩ := h
    rw [← hr, List.prefix_append_right_inj] at hpre
    cases r with
    | nil =>
      rw [List.append_nil] at hr
      have hsp : ' ' ∈ p.1 := by rw [hr]; decide
      exact absurd (hchars ' ' hsp) (by decide)
    | cons c cr =>
      obtain ⟨t, ht⟩ := hpre
      rw [List.cons_append] at ht
      have hc : c = ':' := (List.cons_eq_cons.1 ht).1
      have hmem : ':' ∈ p.1 ++ c :: cr := by
        rw [hc]
        simp
      rw [hr] at hmem
      exact absurd hmem (by decide)

/-- A rendered well-formed header line matches the feed parser's header
pattern. -/
theorem headerBlockLine_render (p : Str × Str) (hp : ValidHeader p) :
    headerBlockLine (renderHeaderLine p) = true := by
  unfold headerBlockLine
  rw [splitColonHeader_render p hp]
  simp

/-- A rendered well-formed header line is non-empty. -/
theorem render_ne_nil (p : Str × Str) (hp : ValidHeader p) :
    renderHeaderLine p ≠ [] := by
  obtain ⟨hne, -, -, -⟩ := hp
  unfold renderHeaderLine
  match hn : p.1 with
  | [] => exact absurd hn hne
  | a :: t => simp

/-- A rendered well-formed header line contains no newline. -/
theorem newline_not_mem_render (p : Str × Str) (hp : ValidHeader p) :
    '\n' ∉ renderHeaderLine p := by
  obtain ⟨-, hchars, hv, -⟩ := hp
  unfold renderHeaderLine
  intro hmem
  rcases List.mem_append.1 hmem with h | h
  · exact absurd (hchars _ h) (by decide)
  · simp only [List.mem_cons] at h
    rcases h with h | h | h
    · exact absurd h (by decide)
    · exact absurd h (by decide)
    · exact hv h

/-- Splitting the rendered email on newlines recovers the header lines, the
blank separator and the body lines. -/
theorem splitOn_renderEmail (hs : List (Str × Str)) (body : List Str)
    (hh : ValidHeaders hs) (hb : ValidBody body) :
    (renderEmail hs body).splitOn '\n' =
      hs.map renderHeaderLine ++ [] :: body := by
  unfold renderEmail
  have hx : ∀ l ∈ hs.map renderHeaderLine ++ [[]] ++ body, '\n' ∉ l := by
    intro l hl
    rcases List.mem_append.1 hl with h | h
    · rcases List.mem_append.1 h with h | h
      · obtain ⟨p, hp, rfl⟩ := List.mem_map.1 h
        exact newline_not_mem_render p (hh p hp)
      · simp only [List.mem_singleton] at h
        subst h
        simp
    · exact hb l h
  have hne : hs.map renderHeaderLine ++ [[]] ++ body ≠ [] := by simp
  rw [List.splitOn_intercalate (hs.map renderHeaderLine ++ [[]] ++ body) '\n' hx hne]
  simp

/-- Collecting the header block of a rendered email consumes exactly the
rendered header lines and the blank separator. -/
theorem collect_render (hs : List (Str × Str)) (body : List Str) :
    ValidHeaders hs →
      collectHeaderLines (hs.map renderHeaderLine ++ [] :: body) =
        (hs.map renderHeaderLine, body) := by
  induction hs with
  | nil =>
    intro _
    simp [collectHeaderLines]
  | cons p t ih =>
    intro hh
    have hp := hh p (by simp)
    have ht : ValidHeaders t := fun q hq => hh q (by simp [hq])
    have h1 := render_ne_nil p hp
    have h2 := headerBlockLine_render p hp
    simp [collectHeaderLines, h1, h2, ih ht]

/-- Interpreting the rendered header lines yields exactly the
whitespace-stripped headers, with no pushed-back line. -/
theorem parseAux_render (hs : List (Str × Str)) :
    ValidHeaders hs →
      ∀ (i n : ℕ) (cur : Option (Str × Str)) (acc : List (Str × Str)),
        parseHeaderLinesAux (hs.map renderHeaderLine) i n cur acc =
          (flushHeader cur acc ++ hs.map stripHdr, none) := by
  induction hs with
  | nil =>
    intro _ i n cur acc
    simp [parseHeaderLinesAux]
  | cons p t ih =>
    intro hh i n cur acc
    have hp := hh p (by simp)
    have ht : ValidHeaders t := fun q hq => hh q (by simp [hq])
    have h1 := render_not_continuation p hp
    have h2 := render_not_fromSpace p hp
    have h3 := splitColonHeader_render p hp
    have h4 : p.1 ≠ [] := hp.1
    simp only [List.map_cons, parseHeaderLinesAux, h1, h2, h3, h4,
      Bool.false_eq_true, if_false]
    rw [ih ht (i + 1) n (some (p.1, lstripST p.2)) (flushHeader cur acc)]
    simp [flushHeader, stripHdr, List.append_assoc]

/-- Header lookup on the stripped headers is lookup on the original headers
followed by stripping the found value. -/
theorem headerGet_map_strip (hs : List (Str × Str)) (name : Str) :
    headerGet (hs.map stripHdr) name = (headerGet hs name).map lstripST := by
  induction hs with
  | nil => rfl
  | cons p t ih =>
    by_cases h : (lowerStr p.1 == lowerStr name) = true
    · unfold headerGet
      have h1 : (fun q : Str × Str => lowerStr q.1 == lowerStr name) (stripHdr p) = true := h
      have h2 : (fun q : Str × Str => lowerStr q.1 == lowerStr name) p = true := h
      rw [List.map_cons,
        List.find?_cons_of_pos (p := fun q : Str × Str => lowerStr q.1 == lowerStr name) _ h1,
        List.find?_cons_of_pos (p := fun q : Str × Str => lowerStr q.1 == lowerStr name) _ h2]
      rfl
    · have h1 : ¬(fun q : Str × Str => lowerStr q.1 == lowerStr name) (stripHdr p) = true := h
      have h2 : ¬(fun q : Str × Str => lowerStr q.1 == lowerStr name) p = true := h
      unfold headerGet at ih ⊢
      rw [List.map_cons,
        List.find?_cons_of_neg (p := fun q : Str × Str => lowerStr q.1 == lowerStr name) _ h1,
        List.find?_cons_of_neg (p := fun q : Str × Str => lowerStr q.1 == lowerStr name) _ h2]
      exact ih

/-- Round trip: parsing a rendered email made of well-formed headers and body
lines produces the record whose header fields are the (case-insensitive,
first-match) header values with leading whitespace stripped, and whose body is
the body text. -/
theorem parse_render (hs : List (Str × Str)) (body : List Str) (now : Str)
    (hh : ValidHeaders hs) (hb : ValidBody body) :
    parse_email (renderEmail hs body) now =
      { sender := (headerGet hs ("From".data)).map lstripST
        recipient := (headerGet hs ("To".data)).map lstripST
        subject := (headerGet hs ("Subject".data)).map lstripST
        body := List.intercalate ['\n'] body
        timestamp := now } := by
  unfold parse_email parseHeaderLines
  rw [splitOn_renderEmail hs body hh hb, collect_render hs body hh]
  simp only
  rw [parseAux_render hs hh 0 (hs.map renderHeaderLine).length none []]
  simp [flushHeader, headerGet_map_strip]

/-- Claim C6: parsing a well-formed raw email whose From and Subject headers
are present produces a record with non-empty sender and subject.  Well-formed
raw text is modeled as a rendered email over structurally valid headers;
presence of a header is its occurrence in the header list; RFC-822
well-formedness of `From:`/`Subject:` requires non-blank contents, captured by
the hypothesis that the value is non-empty after stripping leading
whitespace.  The parsed field is exactly that stripped value, hence
non-empty. -/
theorem parse_email_present_headers_nonempty (hs : List (Str × Str))
    (body : List Str) (now : Str) (vF vS : Str)
    (hh : ValidHeaders hs) (hb : ValidBody body)
    (hF : headerGet hs ("From".data) = some vF)
    (hS : headerGet hs ("Subject".data) = some vS)
    (hFne : lstripST vF ≠ []) (hSne : lstripST vS ≠ []) :
    (parse_email (renderEmail hs body) now).sender = some (lstripST vF) ∧
    lstripST vF ≠ [] ∧
    (parse_email (renderEmail hs body) now).subject = some (lstripST vS) ∧
    lstripST vS ≠ [] := by
  rw [parse_render hs body now hh hb]
  exact ⟨by simp [hF], hFne, by simp [hS], hSne⟩

/-- Claim C6, witness: the theorem applied to concrete headers with a From
and a Subject entry. -/
theorem parse_email_present_headers_nonempty_witness :
    (parse_email (renderEmail sampleHeaders sampleBody) ("t".data)).sender =
      some (lstripST ("alice@example.com".data)) ∧
    lstripST ("alice@example.com".data) ≠ [] ∧
    (parse_email (renderEmail sampleHeaders sampleBody) ("t".data)).subject =
      some (lstripST ("Status update".data)) ∧
    lstripST ("Status update".data) ≠ [] :=
  parse_email_present_headers_nonempty sampleHeaders sampleBody ("t".data)
    ("alice@example.com".data) ("Status update".data)
    (by decide) (by decide) (by decide) (by decide) (by decide) (by decide)

/-- Claim C3, counterexample: the claim states that an absent From header
yields the empty string for the `from` field.  It does not: `msg['From']` is
Python `None` for an absent header, so on a raw email with no From header the
field is `None` (`Option.none`), which is not the empty string. -/
theorem parse_email_missing_from_counterexample :
    (parse_email ("Subject: hi\n\nbody".data) ("t".data)).sender = none ∧
    (parse_email ("Subject: hi\n\nbody".data) ("t".data)).sender ≠ some [] := by
  constructor <;> decide

/-- Claim C3, amended: `parse_email` never raises, and a From, To or Subject
header that is absent (or malformed, so that the parser never records it)
yields Python `None` for the corresponding field — not the empty string.  The
quantified part covers rendered emails with an absent header; the closed
conjunct covers a malformed header block, where a `From:` line present in the
text is swallowed into the body and the field is again `None`. -/
theorem parse_email_absent_headers_give_none (hs : List (Str × Str))
    (body : List Str) (now : Str) (hh : ValidHeaders hs) (hb : ValidBody body) :
    ((headerGet hs ("From".data) = none →
        (parse_email (renderEmail hs body) now).sender = none) ∧
      (headerGet hs ("To".data) = none →
        (parse_email (renderEmail hs body) now).recipient = none) ∧
      (headerGet hs ("Subject".data) = none →
        (parse_email (renderEmail hs body) now).subject = none)) ∧
    (parse_email ("NotAHeader\nFrom: f\n\nbody".data) ("t".data)).sender =
      none := by
  rw [parse_render hs body now hh hb]
  exact ⟨⟨fun h => by simp [h], fun h => by simp [h], fun h => by simp [h]⟩,
    by decide⟩

/-- Claim C3, witness: the amended theorem applied to concrete headers with
no From entry. -/
theorem parse_email_absent_headers_give_none_witness :
    (parse_email (renderEmail otherHeaders sampleBody) ("t".data)).sender =
      none :=
  (parse_email_absent_headers_give_none otherHeaders sampleBody ("t".data)
    (by decide) (by decide)).1.1 (by decide)

/-- Claim C4, witness: the theorem applied to the concrete sample record. -/
theorem build_prompt_contains_fields_witness :
    (("alice@example.com".data) <:+: build_prompt sampleRecord) ∧
    (("Status update".data) <:+: build_prompt sampleRecord) ∧
    (sampleRecord.body <:+: build_prompt sampleRecord) :=
  build_prompt_contains_fields sampleRecord ("alice@example.com".data)
    ("Status update".data) rfl rfl
